import Mathlib

/-!
Verification development for the SearchGram repository.

This file gives a shallow embedding, in Lean 4, of the parts of the
SearchGram source that the specification claims talk about:

* `searchgram/privacy.py` (PrivacyManager: block, unblock, query, and the
  post-search privacy filter);
* `searchgram/access_control.py` (AccessController and per-user group scopes);
* `searchgram/bot.py` (generate_navigation and the parse_and_search pipeline);
* `searchgram/buffered_engine.py` (BufferedSearchEngine: upsert, flush,
  shutdown, statistics);
* `searchgram/sync_manager.py` (SyncProgress records, checkpoint load and save,
  add_chat);
* `searchgram/jwt_auth.py` and `searchgram/sync_api.py` (token verification and
  the require_jwt_auth request gate).

Python dictionaries that hold fixed keys are modelled as structures, Python
sets of ints as `Finset ℤ`, Python dict-keyed maps as association lists, and
raised exceptions as `Except` values.  Thread locks only serialize the
operations modelled here, so every operation is embedded as a pure state
transition.  Network calls (the search engine RPCs) are inputs: each model
takes the response, or the whole response function, as a parameter.
-/

set_option maxHeartbeats 1000000

namespace SearchGram

/-- Python membership test `x in s` where `x` may be `None` (modelled as
`Option ℤ`): `None in s` is `False` for a set of ints, otherwise it is set
membership. -/
def optMem (x : Option ℤ) (s : Finset ℤ) : Bool :=
  match x with
  | none => false
  | some i => decide (i ∈ s)

/-- Python truthiness of an optional int (`None` and `0` are falsy). -/
def truthyId (x : Option ℤ) : Bool :=
  match x with
  | none => false
  | some i => i != 0

/-!  ## Search responses

One hit of a search response, keeping exactly the fields that the privacy
filter, the permission filter and the rendering emptiness test inspect:
`hit.get("from_user").get("id")`, `hit.get("sender_chat").get("id")`,
`hit.get("chat").get("id")`, and `hit.get("text") or hit.get("caption")`.
Absent keys are `none`.  -/
structure Hit where
  fromUserId : Option ℤ
  senderChatId : Option ℤ
  chatId : Option ℤ
  text : Option String
  caption : Option String
  deriving DecidableEq, Repr

/-- Python `hit.get("text") or hit.get("caption")`, then the `if not text`
skip in parse_search_results: the hit renders one line iff this is `true`
(empty strings are falsy). -/
def Hit.hasText (h : Hit) : Bool :=
  h.text.getD "" != "" || h.caption.getD "" != ""

/-- The search-response dictionary, with the keys the bot pipeline reads:
`hits`, `totalHits`, `totalPages`, `page`, `hitsPerPage`.  `hitsPerPage` is
optional because the source reads it with `results.get("hitsPerPage", 10)`;
the other numeric keys are read unconditionally. -/
structure SearchResults where
  hits : List Hit
  totalHits : ℤ
  totalPages : ℤ
  page : ℤ
  hitsPerPage : Option ℤ
  deriving DecidableEq, Repr

/-!  ## privacy.py — PrivacyManager

The blocked-users set `self._blocked_users` is a Python set of ints,
modelled as a `Finset ℤ`.  Each method returns its Python return value
together with the new set (file persistence mirrors the set and is not
modelled separately). -/

/-- PrivacyManager.block_user: `was_new = user_id not in set; set.add(user_id);
return was_new`. -/
def block_user (s : Finset ℤ) (userId : ℤ) : Bool × Finset ℤ :=
  (decide (userId ∉ s), insert userId s)

/-- PrivacyManager.unblock_user: `was_blocked = user_id in set;
set.discard(user_id); return was_blocked`. -/
def unblock_user (s : Finset ℤ) (userId : ℤ) : Bool × Finset ℤ :=
  (decide (userId ∈ s), s.erase userId)

/-- PrivacyManager.is_blocked. -/
def is_blocked (s : Finset ℤ) (userId : ℤ) : Bool :=
  decide (userId ∈ s)

/-- Ceiling division used to mirror `math.ceil(totalHits / hits_per_page)`
on the nonnegative operands the filter produces. -/
def ceilDiv (a b : ℤ) : ℤ :=
  (a + b - 1) / b

/-- PrivacyManager.filter_search_results.  Mirrors privacy.py lines 136-186:
an empty blocked set returns the input unchanged; otherwise hits whose
`from_user.id` or `sender_chat.id` is in the set are dropped, `totalHits`
becomes `max(0, totalHits - removed)`, and `totalPages` is recomputed as
`ceil(totalHits / hitsPerPage)` only when `hitsPerPage` (default 10) is
positive. -/
def filter_search_results (blocked : Finset ℤ) (results : SearchResults) :
    SearchResults :=
  if blocked = ∅ then results
  else
    let filteredHits := results.hits.filter
      (fun h => !(optMem h.fromUserId blocked || optMem h.senderChatId blocked))
    let removed : ℤ := (results.hits.length : ℤ) - (filteredHits.length : ℤ)
    let newTotalHits := max 0 (results.totalHits - removed)
    let hitsPerPage := results.hitsPerPage.getD 10
    { results with
      hits := filteredHits
      totalHits := newTotalHits
      totalPages :=
        if hitsPerPage > 0 then ceilDiv newTotalHits hitsPerPage
        else results.totalPages }

/-!  ## access_control.py — AccessController

Only the fields that the search pipeline consults are embedded: the owner id,
the admin set, the allowed-groups set, and the per-user group permissions map
(`user_group_permissions`, keys already converted to int), modelled as a total
function defaulting to the empty set exactly like
`self.user_group_permissions.get(user_id, set())`. -/
structure AccessController where
  ownerId : ℤ
  admins : Finset ℤ
  allowedGroups : Finset ℤ
  userGroupPermissions : ℤ → Finset ℤ

/-- AccessController.is_owner. -/
def AccessController.is_owner (ac : AccessController) (userId : ℤ) : Bool :=
  userId == ac.ownerId

/-- AccessController.is_admin. -/
def AccessController.is_admin (ac : AccessController) (userId : ℤ) : Bool :=
  decide (userId ∈ ac.admins)

/-- AccessController.get_allowed_groups_for_user: owner and admins get
`allowed_groups`; a regular user gets
`user_group_permissions.get(user_id, set())`. -/
def AccessController.get_allowed_groups_for_user (ac : AccessController)
    (userId : ℤ) : Finset ℤ :=
  if ac.is_owner userId || ac.is_admin userId then ac.allowedGroups
  else ac.userGroupPermissions userId

/-!  ## bot.py — navigation and the search pipeline -/

/-- bot.py `MAX_PAGE = 100`. -/
def MAX_PAGE : ℤ := 100

/-- One InlineKeyboardButton: display text and callback data. -/
structure Button where
  text : String
  callbackData : String
  deriving DecidableEq, Repr

/-- An InlineKeyboardMarkup is a list of button rows; generate_navigation
always produces a single row. -/
abbrev Markup := List (List Button)

/-- bot.py generate_navigation (lines 633-664).  Returns `none` where the
source returns `markup = None`. -/
def generate_navigation (page totalPages : ℤ) : Option Markup :=
  if totalPages != 1 then
    let atMaxPage := page ≥ MAX_PAGE
    let nextPageAvailable := page < totalPages ∧ ¬atMaxPage
    if page == 1 then
      if nextPageAvailable then
        some [[⟨"Next Page", "n|" ++ toString page⟩]]
      else
        none
    else if page == totalPages ∨ atMaxPage then
      some [[⟨"Previous Page", "p|" ++ toString page⟩]]
    else
      if nextPageAvailable then
        some [[⟨"Previous Page", "p|" ++ toString page⟩,
               ⟨"Next Page", "n|" ++ toString page⟩]]
      else
        some [[⟨"Previous Page", "p|" ++ toString page⟩]]
  else
    none

/-- The user-group permission post-filter inside parse_and_search
(bot.py lines 709-725).  It runs only when `user_id and not chat_id` is
truthy, the user is neither owner nor admin, and the allowed-groups set is
non-empty (`if allowed_groups:`); it then keeps the hits whose
`chat.id` is in the set, sets `totalHits := len(filtered_hits)` and
`totalPages := (len + hpp - 1) // hpp` when `hpp > 0` else `1`. -/
def permission_filter (ac : AccessController) (userId chatId : Option ℤ)
    (results : SearchResults) : SearchResults :=
  if truthyId userId && !(truthyId chatId) then
    match userId with
    | none => results
    | some uid =>
      if !(ac.is_owner uid) && !(ac.is_admin uid) then
        let allowedGroups := ac.get_allowed_groups_for_user uid
        if allowedGroups ≠ ∅ then
          let filteredHits := results.hits.filter
            (fun h => optMem h.chatId allowedGroups)
          let hitsPerPage := results.hitsPerPage.getD 10
          { results with
            hits := filteredHits
            totalHits := (filteredHits.length : ℤ)
            totalPages :=
              if hitsPerPage > 0 then
                ((filteredHits.length : ℤ) + hitsPerPage - 1) / hitsPerPage
              else 1 }
        else results
      else results
  else results

/-- The filtering stage of parse_and_search (bot.py lines 704-725): the
privacy filter runs first when `apply_privacy_filter` is set, then the
user-group permission filter. -/
def post_filter (ac : AccessController) (blocked : Finset ℤ)
    (engineResults : SearchResults) (chatId : Option ℤ)
    (applyPrivacyFilter : Bool) (userId : Option ℤ) : SearchResults :=
  permission_filter ac userId chatId
    (if applyPrivacyFilter then filter_search_results blocked engineResults
     else engineResults)

/-- Outcome of parse_and_search.  The source returns a pair
`(text, markup)`; `failure` covers the early error returns (page out of
range), `noResults` the `"No results found..."` return, and `page` the
normal return, carrying the post-filter results that the rendered text and
header are built from together with the navigation markup. -/
inductive SearchReply where
  | failure (msg : String)
  | noResults
  | page (results : SearchResults) (markup : Option Markup)
  deriving DecidableEq, Repr

/-- Hits carried by a SearchReply (empty for the error returns). -/
def SearchReply.hitsOf : SearchReply → List Hit
  | .failure _ => []
  | .noResults => []
  | .page r _ => r.hits

/-- bot.py parse_and_search (lines 667-773).  The engine call
`tgdb.search(...)` is an input (`engineResults`); argument parsing, query
logging and the markdown rendering of each hit are not modelled — only the
emptiness test on the rendered text (a hit contributes a line iff it has a
text or caption) feeds back into the control flow.  The navigation markup is
built from the post-filter `results["page"]` and `results["totalPages"]`. -/
def parse_and_search (ac : AccessController) (blocked : Finset ℤ)
    (engineResults : SearchResults) (page : ℤ) (chatId : Option ℤ)
    (applyPrivacyFilter : Bool) (userId : Option ℤ) : SearchReply :=
  if page < 1 then
    .failure "Invalid page number. Page must be greater than 0."
  else if page > MAX_PAGE then
    .failure "Page number too high. Maximum allowed page is 100."
  else
    let results := post_filter ac blocked engineResults chatId
      applyPrivacyFilter userId
    if (results.hits.filter Hit.hasText).isEmpty then
      .noResults
    else
      .page results (generate_navigation results.page results.totalPages)

/-!  ## buffered_engine.py — BufferedSearchEngine

The engine RPC `upsert_batch` is modelled as a function from the batch to
`Except String BatchResult`: `.error` stands for a raised exception, `.ok`
for a returned response dictionary (whose counts are read with
`result.get("indexed_count", 0)` and `result.get("failed_count", 0)`, so they
are total fields here).  The mutex serializes buffer and stats accesses, so
each public method is a pure transition on `BufState`.  The message type is a
parameter `α`. -/

/-- Response of a successful `POST /api/v1/upsert/batch`. -/
structure BatchResult where
  indexedCount : ℕ
  failedCount : ℕ
  deriving DecidableEq, Repr

/-- An upsert-batch RPC: the response for a given batch, or a raised
exception. -/
abbrev BatchEngine (α : Type) := List α → Except String BatchResult

/-- The `self.stats` counter dictionary. -/
structure BufStats where
  buffered : ℕ
  flushed : ℕ
  batches : ℕ
  errors : ℕ
  deriving DecidableEq, Repr

/-- State of a BufferedSearchEngine: the `enabled` flag, `batch_size`, the
buffer list and the counters. -/
structure BufState (α : Type) where
  enabled : Bool
  batchSize : ℕ
  buffer : List α
  stats : BufStats
  deriving DecidableEq, Repr

/-- Freshly constructed BufferedSearchEngine (empty buffer, zero counters). -/
def BufState.init (α : Type) (enabled : Bool) (batchSize : ℕ) : BufState α :=
  { enabled := enabled, batchSize := batchSize, buffer := [],
    stats := ⟨0, 0, 0, 0⟩ }

/-- BufferedSearchEngine._flush_buffer_unsafe (lines 96-141): an empty buffer
is a no-op; otherwise the whole buffer is sliced out and reset, the RPC is
issued, and on success `flushed += indexed_count`, `batches += 1`, and
`errors += failed_count` when `failed_count > 0`; a raised exception is
caught and adds the batch length to `errors` (the messages are dropped). -/
def flush_buffer {α : Type} (engine : BatchEngine α) (s : BufState α) :
    BufState α :=
  if s.buffer.isEmpty then s
  else
    let messagesToFlush := s.buffer
    let s₁ := { s with buffer := [] }
    match engine messagesToFlush with
    | .ok result =>
      { s₁ with stats :=
        { s₁.stats with
          flushed := s₁.stats.flushed + result.indexedCount
          batches := s₁.stats.batches + 1
          errors :=
            if result.failedCount > 0 then s₁.stats.errors + result.failedCount
            else s₁.stats.errors } }
    | .error _ =>
      { s₁ with stats :=
        { s₁.stats with errors := s₁.stats.errors + messagesToFlush.length } }

/-- BufferedSearchEngine.upsert (lines 143-162): with batching disabled the
message goes straight to the engine and the state is untouched; otherwise the
message is appended, `buffered` incremented, and the buffer flushed when its
length reaches `batch_size`. -/
def upsert {α : Type} (engine : BatchEngine α) (message : α)
    (s : BufState α) : BufState α :=
  if !s.enabled then s
  else
    let s₁ := { s with
      buffer := s.buffer ++ [message]
      stats := { s.stats with buffered := s.stats.buffered + 1 } }
    if s₁.buffer.length ≥ s₁.batchSize then flush_buffer engine s₁
    else s₁

/-- The state transition performed by BufferedSearchEngine.flush
(lines 164-181): a no-op when disabled or when the buffer is empty. -/
def flushRun {α : Type} (engine : BatchEngine α) (s : BufState α) :
    BufState α :=
  if !s.enabled then s
  else if s.buffer.length > 0 then flush_buffer engine s
  else s

/-- BufferedSearchEngine.flush as observed by its caller: the source catches
every exception of the batch RPC inside _flush_buffer_unsafe, so flush
returns normally; the `Except` result records whether an exception reaches
the caller (it never does — both RPC outcomes land in `.ok`). -/
def flush {α : Type} (engine : BatchEngine α) (s : BufState α) :
    Except String (BufState α) :=
  .ok (flushRun engine s)

/-- BufferedSearchEngine.shutdown (lines 183-204): stop the flush thread
(no buffer or stats effect), then a final flush. -/
def shutdown {α : Type} (engine : BatchEngine α) (s : BufState α) :
    BufState α :=
  if !s.enabled then s
  else
    match flush engine s with
    | .ok s₁ => s₁
    | .error _ => s

/-- Snapshot returned by get_stats. -/
structure StatsSnapshot where
  buffered : ℕ
  flushed : ℕ
  batches : ℕ
  errors : ℕ
  bufferSize : ℕ
  deriving DecidableEq, Repr

/-- BufferedSearchEngine.get_stats (lines 206-212). -/
def get_stats {α : Type} (s : BufState α) : StatsSnapshot :=
  { buffered := s.stats.buffered, flushed := s.stats.flushed,
    batches := s.stats.batches, errors := s.stats.errors,
    bufferSize := s.buffer.length }

/-!  ## sync_manager.py — SyncProgress and SyncManager

`SyncProgress.to_dict` serializes every stored field (plus a derived
`progress_percent` that `from_dict` ignores) and `from_dict` reads them all
back, so the JSON round trip is the identity on the record and checkpoint
file entries are modelled as `SyncProgress` values directly.  The progress
map `self.progress_map` (a Python dict keyed by chat id) is modelled as an
association list with in-place update on existing keys, matching dict
insertion semantics; the checkpoint file loader iterates `data["chats"]` in
order.  Status values stay the source strings. -/

structure SyncProgress where
  chatId : ℤ
  totalCount : ℕ
  syncedCount : ℕ
  lastMessageId : Option ℤ
  status : String
  errorCount : ℕ
  lastError : Option String
  startedAt : Option String
  completedAt : Option String
  lastCheckpoint : Option String
  deriving DecidableEq, Repr

/-- SyncProgress.__init__: a fresh record is `pending` with zero counts. -/
def SyncProgress.mk0 (chatId : ℤ) : SyncProgress :=
  { chatId := chatId, totalCount := 0, syncedCount := 0, lastMessageId := none,
    status := "pending", errorCount := 0, lastError := none,
    startedAt := none, completedAt := none, lastCheckpoint := none }

/-- The in-memory progress map, keyed by chat id. -/
abbrev ProgressMap := List (ℤ × SyncProgress)

/-- Python dict lookup `progress_map.get(chat_id)`. -/
def mapLookup (m : ProgressMap) (chatId : ℤ) : Option SyncProgress :=
  match m.find? (fun p => p.1 == chatId) with
  | none => none
  | some p => some p.2

/-- Python dict assignment `progress_map[chat_id] = progress`: replace the
existing entry in place, or append a new one. -/
def mapInsert (m : ProgressMap) (chatId : ℤ) (v : SyncProgress) :
    ProgressMap :=
  match m with
  | [] => [(chatId, v)]
  | p :: rest =>
    if p.1 == chatId then (chatId, v) :: rest
    else p :: mapInsert rest chatId v

/-- Contents of the checkpoint JSON file that the loader reads
(`data.get("chats", [])`; the `last_updated` key is never read back). -/
structure CheckpointData where
  chats : List SyncProgress
  deriving DecidableEq, Repr

/-- One iteration of the `_load_checkpoint` loop body (sync_manager.py lines
114-123): a record whose status is not `"completed"` is coerced to
`"pending"` and stored under its chat id; a completed record is skipped. -/
def load_step (m : ProgressMap) (progress : SyncProgress) : ProgressMap :=
  if progress.status ≠ "completed" then
    mapInsert m progress.chatId { progress with status := "pending" }
  else m

/-- SyncManager._load_checkpoint (lines 104-128): with resume disabled or no
file on disk the map starts empty; otherwise each record of `data["chats"]`
goes through `load_step`. -/
def load_checkpoint (resumeOnRestart : Bool) (file : Option CheckpointData) :
    ProgressMap :=
  if !resumeOnRestart then []
  else
    match file with
    | none => []
    | some data => data.chats.foldl load_step []

/-- SyncManager._save_checkpoint (lines 130-148): the file receives
`to_dict` of every map entry, in map order (the atomic tmp-and-rename write
is not modelled; the file content is). -/
def save_checkpoint (m : ProgressMap) : CheckpointData :=
  { chats := m.map Prod.snd }

/-- SyncManager.add_chat (lines 150-174): an unknown chat gets a fresh
pending record (True); an existing completed record is replaced by a fresh
pending record (True); an existing record in any other status is left
untouched (False). -/
def add_chat (m : ProgressMap) (chatId : ℤ) : Bool × ProgressMap :=
  match mapLookup m chatId with
  | some existing =>
    if existing.status = "completed" then
      (true, mapInsert m chatId (SyncProgress.mk0 chatId))
    else
      (false, m)
  | none =>
    (true, mapInsert m chatId (SyncProgress.mk0 chatId))

/-!  ## jwt_auth.py and sync_api.py — token verification and the request gate

A JWT, as seen by the verifier, is modelled by its claims plus an abstract
bit saying whether its signature verifies under the shared Ed25519 public
key.  `jwt.decode` (PyJWT, called with `verify_signature`, `verify_exp`,
`verify_iat`, `verify_aud` enabled) rejects a bad signature, rejects
`exp <= now`, and rejects an audience claim different from the expected
audience; its iat check validates that `iat` is an integer, which a typed
claim satisfies by construction.  Exceptions are `Except.error` values. -/

structure Token where
  sigValid : Bool
  iss : String
  aud : String
  iat : ℤ
  exp : ℤ
  deriving DecidableEq, Repr

/-- Configuration state of a JWTAuth instance. -/
structure JWTAuthCfg where
  issuer : String
  audience : String
  tokenTtl : ℤ
  publicKeyLoaded : Bool
  deriving DecidableEq, Repr

/-- Errors out of JWTAuth.verify_token: a ValueError when no public key is
loaded (raised before the try block, so not converted), or an
InvalidTokenError with its message. -/
inductive VerifyErr where
  | valueError
  | invalidToken (msg : String)
  deriving DecidableEq, Repr

/-- JWTAuth.verify_token (jwt_auth.py lines 106-154): public key required;
then jwt.decode checks signature, expiry and audience; then, when the
allow-list is truthy (non-empty), the issuer must be in it. -/
def verify_token (cfg : JWTAuthCfg) (now : ℤ) (token : Token)
    (allowedIssuers : List String) : Except VerifyErr Token :=
  if !cfg.publicKeyLoaded then .error .valueError
  else if !token.sigValid then
    .error (.invalidToken "Token verification failed: signature")
  else if token.exp ≤ now then
    .error (.invalidToken "Token expired")
  else if token.aud ≠ cfg.audience then
    .error (.invalidToken "Invalid audience")
  else if allowedIssuers ≠ [] ∧ token.iss ∉ allowedIssuers then
    .error (.invalidToken "Invalid issuer")
  else
    .ok token

/-- The Authorization header of an incoming request: absent, a well-formed
`Bearer` header carrying a token, or anything else (no Bearer prefix). -/
inductive AuthHeader where
  | missing
  | bearer (token : Token)
  | malformed (raw : String)
  deriving Repr

/-- Outcome of the require_jwt_auth gate: the wrapped endpoint runs
(carrying the verified claims when auth was active), or the request is
answered `401` with a JSON error and message, or an uncaught exception
escapes to Flask (`500`). -/
inductive GateOutcome where
  | accepted (claims : Option Token)
  | unauthorized (message : String)
  | serverError
  deriving Repr

/-- sync_api.require_jwt_auth (lines 51-111): with `_jwt_auth` unset every
request is passed straight to the endpoint ("backward compatibility");
otherwise a missing header or one without the `Bearer ` prefix is answered
401, the token is verified with the allow-list, an InvalidTokenError is
answered 401, and a ValueError is not caught. -/
def require_jwt_auth (jwtAuth : Option JWTAuthCfg) (now : ℤ)
    (allowedIssuers : List String) (header : AuthHeader) : GateOutcome :=
  match jwtAuth with
  | none => .accepted none
  | some cfg =>
    match header with
    | .missing => .unauthorized "Missing or invalid Authorization header"
    | .malformed _ => .unauthorized "Invalid Authorization header format"
    | .bearer token =>
      match verify_token cfg now token allowedIssuers with
      | .ok claims => .accepted (some claims)
      | .error (.invalidToken msg) => .unauthorized ("Invalid token: " ++ msg)
      | .error .valueError => .serverError

/-- The auth-related keys of config.json that
jwt_auth.load_jwt_auth_from_config reads. -/
structure AuthConfig where
  useJwt : Bool
  tokenTtl : ℤ
  publicKeyAvailable : Bool
  deriving DecidableEq, Repr

/-- jwt_auth.load_jwt_auth_from_config (lines 221-298): returns None when
`auth.use_jwt` is false, otherwise a JWTAuth built from the config keys.
Both `issuer` and `audience` are required parameters of the Python
function — there is no default for `audience`. -/
def load_jwt_auth_from_config (issuer audience : String) (cfg : AuthConfig) :
    Option JWTAuthCfg :=
  if !cfg.useJwt then none
  else some { issuer := issuer, audience := audience,
              tokenTtl := cfg.tokenTtl,
              publicKeyLoaded := cfg.publicKeyAvailable }

/-- The call `load_jwt_auth_from_config(issuer="userbot")` in
sync_api.init_sync_api (line 38) under Python call semantics: the callee
requires the positional parameter `audience`, and a call that omits it
raises TypeError before the body runs.  `audience = none` models the
omitted argument. -/
def call_load_jwt_auth (issuer : String) (audience : Option String)
    (cfg : AuthConfig) : Except String (Option JWTAuthCfg) :=
  match audience with
  | none =>
    .error "TypeError: missing 1 required positional argument: audience"
  | some aud => .ok (load_jwt_auth_from_config issuer aud cfg)

/-- sync_api.init_sync_api (lines 29-48): the JWT authenticator is loaded
with `issuer="userbot"` and no audience argument; any exception is caught
and `_jwt_auth` is left as None. -/
def init_sync_api_jwt_auth (cfg : AuthConfig) : Option JWTAuthCfg :=
  match call_load_jwt_auth "userbot" none cfg with
  | .ok auth => auth
  | .error _ => none

/-!  ## Concrete instances used by witnesses and counterexamples -/

/-- State of a SyncManager as far as checkpoint persistence is concerned:
the in-memory progress map and the checkpoint file on disk. -/
structure SyncManagerState where
  progressMap : ProgressMap
  diskFile : Option CheckpointData
  deriving Repr

/-- SyncManager.__init__ with resume enabled: the map is loaded from the
disk file, which is left as it is. -/
def SyncManagerState.start (disk : Option CheckpointData) : SyncManagerState :=
  { progressMap := load_checkpoint true disk, diskFile := disk }

/-- SyncManager.add_chat acting on the full state: the method mutates only
the in-memory map and performs no checkpoint save (sync_manager.py lines
150-174 contain no _save_checkpoint call). -/
def add_chat_state (s : SyncManagerState) (chatId : ℤ) :
    Bool × SyncManagerState :=
  ((add_chat s.progressMap chatId).1,
   { s with progressMap := (add_chat s.progressMap chatId).2 })

/-- SyncManager._save_checkpoint acting on the full state. -/
def save_checkpoint_state (s : SyncManagerState) : SyncManagerState :=
  { s with diskFile := some (save_checkpoint s.progressMap) }

/-- The manager state reached, from a fresh start with no checkpoint file,
by AddChat(1) followed by AddChat(2).  Used by the C7 theorems. -/
def stateAfterTwoAddChats : SyncManagerState :=
  (add_chat_state (add_chat_state (SyncManagerState.start none) 1).2 2).2

/-- Accounting invariant of a BufState: everything counted into `buffered`
is either flushed, errored, or still sitting in the buffer. -/
def BufInv {α : Type} (s : BufState α) : Prop :=
  s.stats.flushed + s.stats.errors + s.buffer.length = s.stats.buffered

/-- A batch-upsert endpoint whose successful responses account for every
submitted message: `indexed_count + failed_count` equals the batch size
(the search-engine wire contract of spec section 6). -/
def wellFormedEngine {α : Type} (engine : BatchEngine α) : Prop :=
  ∀ b r, engine b = .ok r → r.indexedCount + r.failedCount = b.length

/-- Access controller used by the C1 theorems: owner 1, no admins, group
100 indexed, and no user_group_permissions entries at all (so user 2 has
the empty entry). -/
def acNoPerms : AccessController :=
  { ownerId := 1, admins := ∅, allowedGroups := {100},
    userGroupPermissions := fun _ => ∅ }

/-- A hit from chat 42 with text, used by the C1 theorems. -/
def hitChat42 : Hit :=
  { fromUserId := some 3, senderChatId := none, chatId := some 42,
    text := some "hello", caption := none }

/-- Engine response containing hitChat42, used by the C1 theorems. -/
def resChat42 : SearchResults :=
  { hits := [hitChat42], totalHits := 1, totalPages := 1, page := 1,
    hitsPerPage := some 10 }

/-- Access controller used by the C1 witness: user 2 may search group 42. -/
def acPerm42 : AccessController :=
  { ownerId := 1, admins := ∅, allowedGroups := {100},
    userGroupPermissions := fun u => if u = 2 then {42} else ∅ }

/-- Access controller used by the C8 theorems: user 2 may search group
50. -/
def acPerm50 : AccessController :=
  { ownerId := 1, admins := ∅, allowedGroups := ∅,
    userGroupPermissions := fun u => if u = 2 then {50} else ∅ }

/-- A hit from chat 50 with text, used by the C8 counterexample. -/
def hitChat50 : Hit :=
  { fromUserId := some 3, senderChatId := none, chatId := some 50,
    text := some "x", caption := none }

/-- Engine response for page 5 of 5, used by the C8 counterexample. -/
def resPage5 : SearchResults :=
  { hits := [hitChat50], totalHits := 41, totalPages := 5, page := 5,
    hitsPerPage := some 10 }

/-- A hit sent by user 3, used by the C3 witness. -/
def hitFrom3 : Hit :=
  { fromUserId := some 3, senderChatId := none, chatId := some 60,
    text := some "a", caption := none }

/-- A hit sent by user 4, used by the C3 witness. -/
def hitFrom4 : Hit :=
  { fromUserId := some 4, senderChatId := none, chatId := some 60,
    text := some "b", caption := none }

/-- A two-hit engine response, used by the C3 witness. -/
def resTwoHits : SearchResults :=
  { hits := [hitFrom3, hitFrom4], totalHits := 2, totalPages := 1, page := 1,
    hitsPerPage := some 10 }

/-!  ## Helper lemmas -/

theorem optMem_empty (x : Option ℤ) : optMem x ∅ = false := by
  cases x <;> simp [optMem]

theorem ceilDiv_bounds (t hpp : ℤ) (hp : 0 < hpp) :
    t ≤ ceilDiv t hpp * hpp ∧ ceilDiv t hpp * hpp < t + hpp := by
  unfold ceilDiv
  have h1 : (t + hpp - 1) / hpp * hpp ≤ t + hpp - 1 :=
    Int.ediv_mul_le (t + hpp - 1) hp.ne'
  have h2 : t + hpp - 1 < ((t + hpp - 1) / hpp + 1) * hpp :=
    Int.lt_ediv_add_one_mul_self (t + hpp - 1) hp
  rw [add_one_mul] at h2
  constructor <;> omega

/-!  ## Claim theorems -/

/-- C10 counterexample: the last conjunct of the claim fails when the user is
already blocked.  With prior set `{5}`, block_user 5 leaves the set at `{5}`,
and the following unblock_user 5 yields the empty set — not the prior
state. -/
theorem C10_counterexample :
    (unblock_user (block_user ({5} : Finset ℤ) 5).2 5).2 = (∅ : Finset ℤ) ∧
    (unblock_user (block_user ({5} : Finset ℤ) 5).2 5).2 ≠ ({5} : Finset ℤ) := by
  constructor <;> decide

/-- C10 (amended): block_user returns True iff the user was not blocked,
unblock_user returns True iff the user was blocked, is_blocked holds after
block and fails after unblock, block on an already-blocked user leaves the
set unchanged, and unblock after block restores the prior set when the user
was not blocked before — when the user was already blocked, the pair removes
the user instead. -/
theorem C10_block_unblock_algebra (s : Finset ℤ) (u : ℤ) :
    ((block_user s u).1 = true ↔ u ∉ s) ∧
    ((unblock_user s u).1 = true ↔ u ∈ s) ∧
    is_blocked (block_user s u).2 u = true ∧
    is_blocked (unblock_user s u).2 u = false ∧
    (u ∈ s → (block_user s u).2 = s) ∧
    (u ∉ s → (unblock_user (block_user s u).2 u).2 = s) ∧
    (u ∈ s → (unblock_user (block_user s u).2 u).2 = s.erase u) := by
  refine ⟨by simp [block_user], by simp [unblock_user],
    by simp [is_blocked, block_user], by simp [is_blocked, unblock_user],
    fun h => by simp [block_user, Finset.insert_eq_self.mpr h],
    fun h => by simp [block_user, unblock_user, Finset.erase_insert h],
    fun _ => by simp [block_user, unblock_user,
      Finset.erase_insert_eq_erase]⟩

/-- Witness for C10_block_unblock_algebra at `s = ∅`, `u = 3`. -/
theorem C10_block_unblock_algebra_witness :
    (3 : ℤ) ∉ (∅ : Finset ℤ) ∧
    (unblock_user (block_user (∅ : Finset ℤ) 3).2 3).2 = (∅ : Finset ℤ) :=
  ⟨by decide, (C10_block_unblock_algebra ∅ 3).2.2.2.2.2.1 (by decide)⟩

/-- C3 counterexample: with an empty blocked set the filter returns the
response unchanged (privacy.py line 146), so `totalPages` is not recomputed:
a response carrying `totalPages = 7` with `totalHits = 0` keeps
`totalPages = 7`, while `ceil(totalHits / hitsPerPage) = 0`. -/
theorem C3_counterexample :
    filter_search_results ∅
        { hits := [], totalHits := 0, totalPages := 7, page := 1,
          hitsPerPage := some 10 } =
      { hits := [], totalHits := 0, totalPages := 7, page := 1,
        hitsPerPage := some 10 } ∧
    (7 : ℤ) ≠ ceilDiv 0 ((some (10 : ℤ)).getD 10) := by
  constructor
  · rfl
  · decide

/-- C3 (amended): after the privacy filter no remaining hit has a blocked
`from_user.id` or `sender_chat.id`; when the blocked set is empty the
response is returned unchanged (so `totalHits` and `totalPages` keep their
input values); when it is non-empty, `totalHits` is decremented by exactly
the number of removed hits floored at 0, and — whenever the response's
`hitsPerPage` (default 10) is positive — `totalPages` is recomputed as the
ceiling of `totalHits / hitsPerPage`, characterized here by its two
defining inequalities. -/
theorem C3_privacy_filter (blocked : Finset ℤ) (results : SearchResults) :
    (∀ h ∈ (filter_search_results blocked results).hits,
        optMem h.fromUserId blocked = false ∧
        optMem h.senderChatId blocked = false) ∧
    (blocked = ∅ → filter_search_results blocked results = results) ∧
    (blocked ≠ ∅ →
      (filter_search_results blocked results).totalHits =
        max 0 (results.totalHits -
          ((results.hits.length : ℤ) -
            ((filter_search_results blocked results).hits.length : ℤ))) ∧
      (0 < results.hitsPerPage.getD 10 →
        (filter_search_results blocked results).totalHits ≤
          (filter_search_results blocked results).totalPages *
            results.hitsPerPage.getD 10 ∧
        (filter_search_results blocked results).totalPages *
            results.hitsPerPage.getD 10 <
          (filter_search_results blocked results).totalHits +
            results.hitsPerPage.getD 10)) := by
  by_cases hb : blocked = ∅
  · subst hb
    refine ⟨fun h _ => ⟨optMem_empty _, optMem_empty _⟩, fun _ => ?_,
      fun hne => absurd rfl hne⟩
    simp [filter_search_results]
  · have hfe : filter_search_results blocked results =
        { results with
          hits := results.hits.filter
            (fun h => !(optMem h.fromUserId blocked ||
                        optMem h.senderChatId blocked))
          totalHits := max 0 (results.totalHits -
            ((results.hits.length : ℤ) -
              ((results.hits.filter
                (fun h => !(optMem h.fromUserId blocked ||
                            optMem h.senderChatId blocked))).length : ℤ)))
          totalPages :=
            if results.hitsPerPage.getD 10 > 0 then
              ceilDiv (max 0 (results.totalHits -
                ((results.hits.length : ℤ) -
                  ((results.hits.filter
                    (fun h => !(optMem h.fromUserId blocked ||
                                optMem h.senderChatId blocked))).length : ℤ))))
                (results.hitsPerPage.getD 10)
            else results.totalPages } := by
      simp [filter_search_results, hb]
    refine ⟨?_, fun h => absurd h hb, fun _ => ?_⟩
    · intro h hmem
      rw [hfe] at hmem
      simp only [List.mem_filter, Bool.not_eq_eq_eq_not, Bool.not_true,
        Bool.or_eq_false_iff] at hmem
      exact ⟨hmem.2.1, hmem.2.2⟩
    · rw [hfe]
      refine ⟨rfl, fun hp => ?_⟩
      simp only [if_pos hp]
      exact ceilDiv_bounds _ _ hp

/-- Witness for C3_privacy_filter: blocking user 3 against a two-hit
response removes exactly one hit and decrements totalHits accordingly. -/
theorem C3_privacy_filter_witness :
    (filter_search_results ({3} : Finset ℤ) resTwoHits).totalHits =
      max 0 (resTwoHits.totalHits - ((resTwoHits.hits.length : ℤ) -
        ((filter_search_results ({3} : Finset ℤ) resTwoHits).hits.length
          : ℤ))) :=
  ((C3_privacy_filter {3} resTwoHits).2.2 (by decide)).1

/-!  ## Association-list lemmas for the progress map -/

theorem mapLookup_nil (c : ℤ) : mapLookup [] c = none := rfl

theorem mapLookup_cons (q : ℤ × SyncProgress) (rest : ProgressMap) (c : ℤ) :
    mapLookup (q :: rest) c =
      if q.1 = c then some q.2 else mapLookup rest c := by
  by_cases h : q.1 = c
  · simp [mapLookup, List.find?, h]
  · have hb : (q.1 == c) = false := beq_eq_false_iff_ne.mpr h
    simp [mapLookup, List.find?, hb, h]

theorem mapLookup_mapInsert_self (m : ProgressMap) (k : ℤ) (v : SyncProgress) :
    mapLookup (mapInsert m k v) k = some v := by
  induction m with
  | nil => simp [mapInsert, mapLookup_cons]
  | cons p rest ih =>
    by_cases hpk : p.1 = k
    · simp [mapInsert, hpk, mapLookup_cons]
    · simp [mapInsert, hpk, mapLookup_cons, ih]

theorem mapLookup_mapInsert_ne (m : ProgressMap) (k k' : ℤ) (v : SyncProgress)
    (hne : k' ≠ k) : mapLookup (mapInsert m k v) k' = mapLookup m k' := by
  induction m with
  | nil => simp [mapInsert, mapLookup_cons, mapLookup_nil, Ne.symm hne]
  | cons p rest ih =>
    by_cases hpk : p.1 = k
    · simp [mapInsert, hpk, mapLookup_cons, Ne.symm hne]
    · by_cases hpk' : p.1 = k' <;>
        simp [mapInsert, hpk, mapLookup_cons, hpk', ih, hne]

theorem mem_mapInsert (m : ProgressMap) (k : ℤ) (v : SyncProgress)
    (p : ℤ × SyncProgress) (hmem : p ∈ mapInsert m k v) :
    p ∈ m ∨ p = (k, v) := by
  induction m with
  | nil => simpa [mapInsert] using hmem
  | cons q rest ih =>
    by_cases hqk : q.1 = k
    · simp only [mapInsert, beq_iff_eq, if_pos hqk, List.mem_cons] at hmem
      rcases hmem with h | h
      · exact Or.inr h
      · exact Or.inl (List.mem_cons_of_mem _ h)
    · simp only [mapInsert, beq_iff_eq, if_neg hqk, List.mem_cons] at hmem
      rcases hmem with h | h
      · exact Or.inl (h ▸ List.mem_cons_self _ _)
      · rcases ih h with h' | h'
        · exact Or.inl (List.mem_cons_of_mem _ h')
        · exact Or.inr h'

theorem mapLookup_isSome_mapInsert (m : ProgressMap) (k c : ℤ)
    (v : SyncProgress) (hs : (mapLookup m c).isSome = true) :
    (mapLookup (mapInsert m k v) c).isSome = true := by
  by_cases hck : c = k
  · subst hck
    simp [mapLookup_mapInsert_self]
  · rwa [mapLookup_mapInsert_ne m k c v hck]

theorem mapLookup_mapInsert_isSome (m : ProgressMap) (k c : ℤ)
    (v : SyncProgress) (hs : (mapLookup (mapInsert m k v) c).isSome = true) :
    c = k ∨ (mapLookup m c).isSome = true := by
  by_cases hck : c = k
  · exact Or.inl hck
  · rw [mapLookup_mapInsert_ne m k c v hck] at hs
    exact Or.inr hs

/-!  ## Lemmas about the checkpoint-loading fold -/

theorem load_step_pending (m : ProgressMap)
    (hm : ∀ p ∈ m, p.2.status = "pending") (rec : SyncProgress) :
    ∀ p ∈ load_step m rec, p.2.status = "pending" := by
  intro p hp
  unfold load_step at hp
  by_cases hc : rec.status ≠ "completed"
  · rw [if_pos hc] at hp
    rcases mem_mapInsert _ _ _ _ hp with h | h
    · exact hm p h
    · rw [h]
  · rw [if_neg hc] at hp
    exact hm p hp

theorem load_step_isSome (m : ProgressMap) (c : ℤ) (rec : SyncProgress)
    (hs : (mapLookup m c).isSome = true) :
    (mapLookup (load_step m rec) c).isSome = true := by
  unfold load_step
  by_cases hc : rec.status ≠ "completed"
  · rw [if_pos hc]
    exact mapLookup_isSome_mapInsert _ _ _ _ hs
  · rwa [if_neg hc]

theorem foldl_load_step_pending (l : List SyncProgress) (m : ProgressMap)
    (hm : ∀ p ∈ m, p.2.status = "pending") :
    ∀ p ∈ l.foldl load_step m, p.2.status = "pending" := by
  induction l generalizing m with
  | nil => exact hm
  | cons rec rest ih =>
    exact ih (load_step m rec) (load_step_pending m hm rec)

theorem foldl_load_step_isSome (l : List SyncProgress) (m : ProgressMap)
    (c : ℤ) (hs : (mapLookup m c).isSome = true) :
    (mapLookup (l.foldl load_step m) c).isSome = true := by
  induction l generalizing m with
  | nil => exact hs
  | cons rec rest ih =>
    exact ih (load_step m rec) (load_step_isSome m c rec hs)

theorem foldl_load_step_retains (l : List SyncProgress) :
    ∀ (m : ProgressMap) (rec : SyncProgress), rec ∈ l →
      rec.status ≠ "completed" →
      (mapLookup (l.foldl load_step m) rec.chatId).isSome = true := by
  induction l with
  | nil =>
    intro m rec hmem _
    cases hmem
  | cons r rest ih =>
    intro m rec hmem hst
    simp only [List.foldl_cons]
    rcases List.mem_cons.mp hmem with h | h
    · subst h
      apply foldl_load_step_isSome
      unfold load_step
      rw [if_pos hst]
      simp [mapLookup_mapInsert_self]
    · exact ih (load_step m r) rec h hst

theorem foldl_load_step_origin (l : List SyncProgress) (m : ProgressMap)
    (c : ℤ) (hs : (mapLookup (l.foldl load_step m) c).isSome = true) :
    (mapLookup m c).isSome = true ∨
      ∃ rec ∈ l, rec.chatId = c ∧ rec.status ≠ "completed" := by
  induction l generalizing m with
  | nil => exact Or.inl hs
  | cons r rest ih =>
    rcases ih (load_step m r) hs with h | h
    · unfold load_step at h
      by_cases hc : r.status ≠ "completed"
      · rw [if_pos hc] at h
        rcases mapLookup_mapInsert_isSome _ _ _ _ h with h' | h'
        · exact Or.inr ⟨r, List.mem_cons_self _ _, h'.symm, hc⟩
        · exact Or.inl h'
      · rw [if_neg hc] at h
        exact Or.inl h
    · rcases h with ⟨rec, hrec, hcid, hst⟩
      exact Or.inr ⟨rec, List.mem_cons_of_mem _ hrec, hcid, hst⟩

/-- C5 counterexample: with resume enabled and a checkpoint file holding one
record with status completed, _load_checkpoint produces an empty map — the
completed record is not retained (sync_manager.py line 117 skips it
unconditionally; no config flag is consulted). -/
theorem C5_counterexample :
    load_checkpoint true
        (some { chats := [{ SyncProgress.mk0 77 with status := "completed" }] })
        = [] ∧
    mapLookup
      (load_checkpoint true
        (some { chats :=
          [{ SyncProgress.mk0 77 with status := "completed" }] })) 77 = none := by
  constructor <;> rfl

/-- C5 (amended): when the sync manager starts with resume enabled and a
checkpoint file present, every record whose status is not completed is
coerced to pending and retained, while every completed record is pruned
unconditionally — the loaded map holds only pending entries, holds an entry
for every non-completed record of the file, and holds nothing else. -/
theorem C5_load_checkpoint_resume (data : CheckpointData) :
    (∀ p ∈ load_checkpoint true (some data), p.2.status = "pending") ∧
    (∀ rec ∈ data.chats, rec.status ≠ "completed" →
      (mapLookup (load_checkpoint true (some data)) rec.chatId).isSome
        = true) ∧
    (∀ c : ℤ, (mapLookup (load_checkpoint true (some data)) c).isSome = true →
      ∃ rec ∈ data.chats, rec.chatId = c ∧ rec.status ≠ "completed") := by
  refine ⟨?_, ?_, ?_⟩
  · exact foldl_load_step_pending data.chats [] (by intro p hp; cases hp)
  · intro rec hrec hst
    exact foldl_load_step_retains data.chats [] rec hrec hst
  · intro c hc
    rcases foldl_load_step_origin data.chats [] c hc with h | h
    · cases h
    · exact h

/-- Witness for C5_load_checkpoint_resume: a file with one failed record for
chat 4 and one completed record for chat 7 loads to a map where chat 4 is
present (and pending). -/
theorem C5_load_checkpoint_resume_witness :
    (mapLookup
      (load_checkpoint true
        (some { chats :=
          [{ SyncProgress.mk0 4 with status := "failed" },
           { SyncProgress.mk0 7 with status := "completed" }] }))
      4).isSome = true :=
  (C5_load_checkpoint_resume
    { chats := [{ SyncProgress.mk0 4 with status := "failed" },
                { SyncProgress.mk0 7 with status := "completed" }] }).2.1
    { SyncProgress.mk0 4 with status := "failed" }
    (by simp) (by decide)

/-- C6 counterexample: calling add_chat on a chat whose record is in status
failed is rejected (sync_manager.py lines 168-170): the call returns False
and the map is unchanged, so the record stays failed instead of becoming
pending. -/
theorem C6_counterexample :
    add_chat [((9 : ℤ), { SyncProgress.mk0 9 with status := "failed" })] 9 =
      (false, [((9 : ℤ), { SyncProgress.mk0 9 with status := "failed" })]) ∧
    (mapLookup
        (add_chat [((9 : ℤ), { SyncProgress.mk0 9 with status := "failed" })]
          9).2 9).map SyncProgress.status = some "failed" := by
  constructor <;> rfl

/-- C6 (amended): add_chat on an existing record whose status is failed is
rejected: it returns False and leaves the whole map (hence the record)
unchanged.  The failed-to-pending transition is not available through
add_chat; only a completed record is reset to a fresh pending one. -/
theorem C6_add_chat_failed_rejected (m : ProgressMap) (chatId : ℤ)
    (p : SyncProgress) (hlk : mapLookup m chatId = some p)
    (hst : p.status = "failed") :
    add_chat m chatId = (false, m) := by
  simp [add_chat, hlk, hst]

/-- Witness for C6_add_chat_failed_rejected at a one-entry map. -/
theorem C6_add_chat_failed_rejected_witness :
    add_chat [((9 : ℤ), { SyncProgress.mk0 9 with status := "failed" })] 9 =
      (false, [((9 : ℤ), { SyncProgress.mk0 9 with status := "failed" })]) :=
  C6_add_chat_failed_rejected _ 9
    { SyncProgress.mk0 9 with status := "failed" } rfl rfl

/-- C7 counterexample: starting a manager with no checkpoint file and
calling AddChat(1) then AddChat(2) leaves the disk file absent — add_chat
never writes the checkpoint — so a fresh manager loading that state has
neither chat. -/
theorem C7_counterexample :
    stateAfterTwoAddChats.diskFile = none ∧
    mapLookup
      (SyncManagerState.start stateAfterTwoAddChats.diskFile).progressMap 1
      = none ∧
    mapLookup
      (SyncManagerState.start stateAfterTwoAddChats.diskFile).progressMap 2
      = none := by
  refine ⟨rfl, rfl, rfl⟩

/-- C7 (amended): after AddChat(a) then AddChat(b) on an empty map, both
chats are present in memory with fresh pending records; the checkpoint file
is only written when _save_checkpoint runs, and once it does, a fresh
manager loading the saved file (resume enabled) has both a and b present
with status pending. -/
theorem C7_add_save_reload (a b : ℤ) (hab : a ≠ b) :
    mapLookup (add_chat (add_chat [] a).2 b).2 a = some (SyncProgress.mk0 a) ∧
    mapLookup (add_chat (add_chat [] a).2 b).2 b = some (SyncProgress.mk0 b) ∧
    mapLookup
      (load_checkpoint true
        (some (save_checkpoint (add_chat (add_chat [] a).2 b).2))) a =
      some (SyncProgress.mk0 a) ∧
    mapLookup
      (load_checkpoint true
        (some (save_checkpoint (add_chat (add_chat [] a).2 b).2))) b =
      some (SyncProgress.mk0 b) := by
  have hba : b ≠ a := Ne.symm hab
  have hm : (add_chat (add_chat [] a).2 b).2 =
      [(a, SyncProgress.mk0 a), (b, SyncProgress.mk0 b)] := by
    simp [add_chat, mapLookup_nil, mapInsert, mapLookup_cons, hab, hba]
  have hload : load_checkpoint true
      (some (save_checkpoint (add_chat (add_chat [] a).2 b).2)) =
      [(a, SyncProgress.mk0 a), (b, SyncProgress.mk0 b)] := by
    rw [hm]
    simp [load_checkpoint, save_checkpoint, load_step, SyncProgress.mk0,
      mapInsert, hab, hba]
  refine ⟨?_, ?_, ?_, ?_⟩
  · rw [hm]; simp [mapLookup_cons]
  · rw [hm]; simp [mapLookup_cons, hab]
  · rw [hload]; simp [mapLookup_cons]
  · rw [hload]; simp [mapLookup_cons, hab]

/-- Witness for C7_add_save_reload at `a = 1`, `b = 2`. -/
theorem C7_add_save_reload_witness :
    mapLookup
      (load_checkpoint true
        (some (save_checkpoint (add_chat (add_chat [] 1).2 2).2))) 1 =
      some (SyncProgress.mk0 1) :=
  (C7_add_save_reload 1 2 (by decide)).2.2.1

/-- C2: evaluation at the failing input.  Even with JWT enabled in config
and the key material available, init_sync_api leaves the sync API with no
authenticator — the call to load_jwt_auth_from_config omits the required
audience parameter, the resulting TypeError is caught, and `_jwt_auth`
stays None — so require_jwt_auth accepts a request that carries no
Authorization header at all, instead of answering 401.  The same gate with
a properly constructed authenticator would answer 401, showing the
divergence comes from the initialization slip. -/
theorem C2_sync_api_accepts_unauthenticated :
    init_sync_api_jwt_auth
        { useJwt := true, tokenTtl := 300, publicKeyAvailable := true }
      = none ∧
    require_jwt_auth
        (init_sync_api_jwt_auth
          { useJwt := true, tokenTtl := 300, publicKeyAvailable := true })
        1000 ["bot"] .missing
      = .accepted none ∧
    require_jwt_auth
        (load_jwt_auth_from_config "userbot" "internal"
          { useJwt := true, tokenTtl := 300, publicKeyAvailable := true })
        1000 ["bot"] .missing
      = .unauthorized "Missing or invalid Authorization header" := by
  refine ⟨rfl, rfl, rfl⟩

/-- C4 counterexample: a Flush() whose batch-upsert RPC raises is not
surfaced — the exception is caught inside _flush_buffer_unsafe
(buffered_engine.py lines 132-141), the batch is dropped and counted as
errors, and flush returns normally. -/
theorem C4_counterexample :
    flush (fun _ => Except.error "ConnectionError")
        ({ enabled := true, batchSize := 100, buffer := [7],
           stats := ⟨1, 0, 0, 0⟩ } : BufState ℕ) =
      Except.ok { enabled := true, batchSize := 100, buffer := [],
                  stats := ⟨1, 0, 0, 1⟩ } := by
  rfl

/-- C4 (amended): when the batch-upsert RPC issued during Flush() fails on a
non-empty buffer, the failure is caught inside the indexer: the buffered
messages are dropped, the errors counter grows by the batch size, and
flush() returns normally to its caller — no failure propagates. -/
theorem C4_flush_swallows_rpc_failure {α : Type} (engine : BatchEngine α)
    (s : BufState α) (e : String) (hen : s.enabled = true)
    (hne : s.buffer ≠ []) (herr : engine s.buffer = .error e) :
    flush engine s =
      .ok { s with
            buffer := []
            stats := { s.stats with
              errors := s.stats.errors + s.buffer.length } } := by
  unfold flush flushRun flush_buffer
  have hlen : s.buffer.length > 0 := List.length_pos.mpr hne
  have hemp : s.buffer.isEmpty = false := by
    cases hb : s.buffer with
    | nil => exact absurd hb hne
    | cons x xs => rfl
  simp [hen, hlen, hemp, herr]

/-- Witness for C4_flush_swallows_rpc_failure at a one-message buffer and an
always-failing engine. -/
theorem C4_flush_swallows_rpc_failure_witness :
    flush (fun _ => Except.error "ConnectionError")
        ({ enabled := true, batchSize := 100, buffer := [7],
           stats := ⟨1, 0, 0, 0⟩ } : BufState ℕ) =
      Except.ok { enabled := true, batchSize := 100, buffer := [],
                  stats := ⟨1, 0, 0, 0 + 1⟩ } :=
  C4_flush_swallows_rpc_failure (fun _ => Except.error "ConnectionError")
    { enabled := true, batchSize := 100, buffer := [7],
      stats := ⟨1, 0, 0, 0⟩ } "ConnectionError" rfl (by decide) rfl

/-!  ## Invariant lemmas for the buffered engine -/

theorem bufInv_flush_buffer {α : Type} (engine : BatchEngine α)
    (hwf : wellFormedEngine engine) (s : BufState α) (hInv : BufInv s) :
    BufInv (flush_buffer engine s) := by
  unfold flush_buffer
  by_cases hemp : s.buffer.isEmpty
  · rwa [if_pos hemp]
  · rw [if_neg hemp]
    rcases heng : engine s.buffer with e | r
    · simp only [heng]
      unfold BufInv at hInv ⊢
      simp only [List.length_nil]
      omega
    · simp only [heng]
      have hsum := hwf s.buffer r heng
      unfold BufInv at hInv ⊢
      by_cases hf : r.failedCount > 0
      · rw [if_pos hf]
        simp only [List.length_nil]
        omega
      · rw [if_neg hf]
        simp only [List.length_nil]
        omega

theorem enabled_flush_buffer {α : Type} (engine : BatchEngine α)
    (s : BufState α) : (flush_buffer engine s).enabled = s.enabled := by
  unfold flush_buffer
  by_cases hemp : s.buffer.isEmpty
  · rw [if_pos hemp]
  · rw [if_neg hemp]
    rcases heng : engine s.buffer with e | r <;> simp only [heng]

theorem buffer_flush_buffer {α : Type} (engine : BatchEngine α)
    (s : BufState α) : (flush_buffer engine s).buffer = [] := by
  unfold flush_buffer
  by_cases hemp : s.buffer.isEmpty
  · rw [if_pos hemp]
    exact List.isEmpty_iff.mp hemp
  · rw [if_neg hemp]
    rcases heng : engine s.buffer with e | r <;> simp only [heng]

theorem bufInv_upsert {α : Type} (engine : BatchEngine α)
    (hwf : wellFormedEngine engine) (message : α) (s : BufState α)
    (hInv : BufInv s) : BufInv (upsert engine message s) := by
  unfold upsert
  by_cases hen : !s.enabled
  · rwa [if_pos hen]
  · rw [if_neg hen]
    set s₁ : BufState α := { s with
      buffer := s.buffer ++ [message]
      stats := { s.stats with buffered := s.stats.buffered + 1 } } with hs₁
    have hInv₁ : BufInv s₁ := by
      unfold BufInv at hInv ⊢
      simp only [hs₁, List.length_append, List.length_cons, List.length_nil]
      omega
    by_cases hb : s₁.buffer.length ≥ s₁.batchSize
    · rw [if_pos hb]
      exact bufInv_flush_buffer engine hwf s₁ hInv₁
    · rwa [if_neg hb]

theorem enabled_upsert {α : Type} (engine : BatchEngine α) (message : α)
    (s : BufState α) : (upsert engine message s).enabled = s.enabled := by
  unfold upsert
  by_cases hen : !s.enabled
  · rw [if_pos hen]
  · rw [if_neg hen]
    set s₁ : BufState α := { s with
      buffer := s.buffer ++ [message]
      stats := { s.stats with buffered := s.stats.buffered + 1 } } with hs₁
    by_cases hb : s₁.buffer.length ≥ s₁.batchSize
    · rw [if_pos hb, enabled_flush_buffer]
    · rw [if_neg hb]

theorem bufInv_foldl_upsert {α : Type} (engine : BatchEngine α)
    (hwf : wellFormedEngine engine) (msgs : List α) :
    ∀ s : BufState α, BufInv s →
      BufInv (msgs.foldl (fun acc message => upsert engine message acc) s) := by
  induction msgs with
  | nil => intro s hInv; exact hInv
  | cons message rest ih =>
    intro s hInv
    exact ih (upsert engine message s) (bufInv_upsert engine hwf message s hInv)

theorem enabled_foldl_upsert {α : Type} (engine : BatchEngine α)
    (msgs : List α) :
    ∀ s : BufState α,
      (msgs.foldl (fun acc message => upsert engine message acc) s).enabled
        = s.enabled := by
  induction msgs with
  | nil => intro s; rfl
  | cons message rest ih =>
    intro s
    rw [List.foldl_cons, ih (upsert engine message s), enabled_upsert]

theorem upsert_disabled {α : Type} (engine : BatchEngine α) (message : α)
    (s : BufState α) (hen : s.enabled = false) :
    upsert engine message s = s := by
  unfold upsert
  rw [hen]
  rfl

/-- C9: for every sequence of upsert calls followed by shutdown() — with the
engine satisfying the wire contract that each successful batch response
accounts for the whole batch — the final statistics snapshot has an empty
buffer and the cumulative `flushed + errors` equals the cumulative
`buffered`. -/
theorem C9_buffer_drain {α : Type} (engine : BatchEngine α)
    (hwf : wellFormedEngine engine) (enabled : Bool) (batchSize : ℕ)
    (msgs : List α) :
    (get_stats (shutdown engine
        (msgs.foldl (fun acc message => upsert engine message acc)
          (BufState.init α enabled batchSize)))).bufferSize = 0 ∧
    (get_stats (shutdown engine
        (msgs.foldl (fun acc message => upsert engine message acc)
          (BufState.init α enabled batchSize)))).flushed +
      (get_stats (shutdown engine
        (msgs.foldl (fun acc message => upsert engine message acc)
          (BufState.init α enabled batchSize)))).errors =
    (get_stats (shutdown engine
        (msgs.foldl (fun acc message => upsert engine message acc)
          (BufState.init α enabled batchSize)))).buffered := by
  cases henb : enabled
  · have hrun : msgs.foldl (fun acc message => upsert engine message acc)
        (BufState.init α false batchSize) = BufState.init α false batchSize := by
      induction msgs with
      | nil => rfl
      | cons message rest ih =>
        rw [List.foldl_cons,
          upsert_disabled engine message (BufState.init α false batchSize) rfl,
          ih]
    rw [hrun]
    exact ⟨rfl, rfl⟩
  · set run := msgs.foldl (fun acc message => upsert engine message acc)
      (BufState.init α true batchSize) with hrun
    have hen : run.enabled = true := by
      rw [hrun, enabled_foldl_upsert]
      rfl
    have hInv : BufInv run := by
      rw [hrun]
      exact bufInv_foldl_upsert engine hwf msgs _ (by unfold BufInv; rfl)
    have hsd : shutdown engine run = flushRun engine run := by
      unfold shutdown flush
      rw [hen]
      simp
    have hbuf : (flushRun engine run).buffer = [] := by
      unfold flushRun
      rw [hen]
      simp only [Bool.not_true]
      rw [if_neg (by simp)]
      by_cases hlen : run.buffer.length > 0
      · rw [if_pos hlen]
        exact buffer_flush_buffer engine run
      · rw [if_neg hlen]
        have h0 : run.buffer.length = 0 := by omega
        exact List.eq_nil_of_length_eq_zero h0
    have hInv' : BufInv (flushRun engine run) := by
      unfold flushRun
      rw [hen]
      simp only [Bool.not_true]
      rw [if_neg (by simp)]
      by_cases hlen : run.buffer.length > 0
      · rw [if_pos hlen]
        exact bufInv_flush_buffer engine hwf run hInv
      · rw [if_neg hlen]
        exact hInv
    rw [hsd]
    unfold BufInv at hInv'
    rw [hbuf] at hInv'
    simp only [List.length_nil, Nat.add_zero] at hInv'
    exact ⟨by simp [get_stats, hbuf], by simp [get_stats, hInv']⟩

/-- Witness for C9_buffer_drain: three messages through a batch size of 2
with an engine that indexes every message. -/
theorem C9_buffer_drain_witness :
    (get_stats (shutdown (fun b => Except.ok ⟨b.length, 0⟩)
        (([1, 2, 3] : List ℕ).foldl
          (fun acc message =>
            upsert (fun b => Except.ok ⟨b.length, 0⟩) message acc)
          (BufState.init ℕ true 2)))).bufferSize = 0 ∧
    (get_stats (shutdown (fun b => Except.ok ⟨b.length, 0⟩)
        (([1, 2, 3] : List ℕ).foldl
          (fun acc message =>
            upsert (fun b => Except.ok ⟨b.length, 0⟩) message acc)
          (BufState.init ℕ true 2)))).flushed +
      (get_stats (shutdown (fun b => Except.ok ⟨b.length, 0⟩)
        (([1, 2, 3] : List ℕ).foldl
          (fun acc message =>
            upsert (fun b => Except.ok ⟨b.length, 0⟩) message acc)
          (BufState.init ℕ true 2)))).errors =
    (get_stats (shutdown (fun b => Except.ok ⟨b.length, 0⟩)
        (([1, 2, 3] : List ℕ).foldl
          (fun acc message =>
            upsert (fun b => Except.ok ⟨b.length, 0⟩) message acc)
          (BufState.init ℕ true 2)))).buffered :=
  C9_buffer_drain (fun b => Except.ok ⟨b.length, 0⟩)
    (fun b r h => by
      cases h
      simp)
    true 2 [1, 2, 3]

/-!  ## Lemmas about the search pipeline -/

theorem permission_filter_nonempty_hits (ac : AccessController) (uid : ℤ)
    (results : SearchResults) (h0 : uid ≠ 0)
    (how : ac.is_owner uid = false) (had : ac.is_admin uid = false)
    (hne : ac.get_allowed_groups_for_user uid ≠ ∅) :
    (permission_filter ac (some uid) none results).hits =
      results.hits.filter
        (fun h => optMem h.chatId (ac.get_allowed_groups_for_user uid)) := by
  unfold permission_filter
  have ht : (truthyId (some uid) && !truthyId none) = true := by
    simp [truthyId, h0]
  rw [if_pos ht]
  dsimp only
  have hoa : (!ac.is_owner uid && !ac.is_admin uid) = true := by
    rw [how, had]
    rfl
  rw [if_pos hoa, if_pos hne]

theorem permission_filter_empty_perms (ac : AccessController) (uid : ℤ)
    (results : SearchResults)
    (he : ac.get_allowed_groups_for_user uid = ∅) :
    permission_filter ac (some uid) none results = results := by
  unfold permission_filter
  by_cases ht : (truthyId (some uid) && !truthyId none) = true
  · rw [if_pos ht]
    dsimp only
    by_cases hoa : (!ac.is_owner uid && !ac.is_admin uid) = true
    · rw [if_pos hoa, if_neg (by simp [he])]
    · rw [if_neg hoa]
  · rw [if_neg ht]

theorem filter_search_results_page (blocked : Finset ℤ)
    (results : SearchResults) :
    (filter_search_results blocked results).page = results.page := by
  unfold filter_search_results
  by_cases hb : blocked = ∅
  · rw [if_pos hb]
  · rw [if_neg hb]

theorem permission_filter_page (ac : AccessController)
    (userId chatId : Option ℤ) (results : SearchResults) :
    (permission_filter ac userId chatId results).page = results.page := by
  unfold permission_filter
  by_cases hc : (truthyId userId && !truthyId chatId) = true
  · rw [if_pos hc]
    cases userId with
    | none => rfl
    | some uid =>
      dsimp only
      by_cases hoa : (!ac.is_owner uid && !ac.is_admin uid) = true
      · rw [if_pos hoa]
        by_cases hne : ac.get_allowed_groups_for_user uid ≠ ∅
        · rw [if_pos hne]
        · rw [if_neg hne]
      · rw [if_neg hoa]
  · rw [if_neg hc]

theorem post_filter_page (ac : AccessController) (blocked : Finset ℤ)
    (engineResults : SearchResults) (chatId : Option ℤ) (apf : Bool)
    (userId : Option ℤ) :
    (post_filter ac blocked engineResults chatId apf userId).page =
      engineResults.page := by
  unfold post_filter
  rw [permission_filter_page]
  by_cases hf : apf = true
  · rw [if_pos hf, filter_search_results_page]
  · rw [if_neg hf]

theorem parse_and_search_page_inv (ac : AccessController) (blocked : Finset ℤ)
    (engineResults : SearchResults) (page : ℤ) (chatId : Option ℤ)
    (apf : Bool) (userId : Option ℤ) (r : SearchResults) (m : Option Markup)
    (hres : parse_and_search ac blocked engineResults page chatId apf userId
      = .page r m) :
    r = post_filter ac blocked engineResults chatId apf userId ∧
    m = generate_navigation r.page r.totalPages := by
  unfold parse_and_search at hres
  by_cases h1 : page < 1
  · rw [if_pos h1] at hres
    exact absurd hres (by simp)
  · rw [if_neg h1] at hres
    by_cases h2 : page > MAX_PAGE
    · rw [if_pos h2] at hres
      exact absurd hres (by simp)
    · rw [if_neg h2] at hres
      by_cases h3 : ((post_filter ac blocked engineResults chatId apf
          userId).hits.filter Hit.hasText).isEmpty = true
      · rw [if_pos h3] at hres
        exact absurd hres (by simp)
      · rw [if_neg h3] at hres
        cases hres
        exact ⟨rfl, rfl⟩

theorem generate_navigation_no_next_at_max (p tp : ℤ) (hp : MAX_PAGE ≤ p)
    (rows : Markup) (hm : generate_navigation p tp = some rows) :
    ∀ row ∈ rows, ∀ b ∈ row, b.text ≠ "Next Page" := by
  unfold generate_navigation at hm
  by_cases h1 : (tp != 1) = true
  · rw [if_pos h1] at hm
    by_cases h2 : (p == 1) = true
    · exfalso
      have hp1 : p = 1 := by simpa using h2
      unfold MAX_PAGE at hp
      omega
    · rw [if_neg h2, if_pos (Or.inr hp)] at hm
      cases hm
      intro row hrow b hb
      simp only [List.mem_singleton] at hrow
      subst hrow
      simp only [List.mem_singleton] at hb
      subst hb
      show ("Previous Page" : String) ≠ "Next Page"
      decide
  · rw [if_neg h1] at hm
    cases hm

/-- C1 counterexample: user 2 is neither owner nor admin and has an empty
user_group_permissions entry, yet a global search returns the hit from chat
42 unfiltered — `if allowed_groups:` (bot.py line 715) skips the permission
filter entirely for an empty set, so the user receives hits instead of
none, and the returned hit's chat is not in the (empty) allowed set. -/
theorem C1_counterexample :
    acNoPerms.is_owner 2 = false ∧
    acNoPerms.is_admin 2 = false ∧
    acNoPerms.get_allowed_groups_for_user 2 = ∅ ∧
    parse_and_search acNoPerms ∅ resChat42 1 none true (some 2) =
      .page resChat42 none ∧
    optMem hitChat42.chatId (acNoPerms.get_allowed_groups_for_user 2)
      = false := by
  refine ⟨rfl, by decide, ?_, by decide, by decide⟩
  simp [acNoPerms, AccessController.get_allowed_groups_for_user,
    AccessController.is_owner, AccessController.is_admin]

/-- C1 (amended): for a non-owner, non-admin user searching without a chat
scope, when the user's allowed-groups entry is non-empty every hit of the
returned page lies in that entry; when the entry is empty the permission
filter is skipped and the results (after the privacy filter, if applied)
pass through unchanged. -/
theorem C1_permission_containment (ac : AccessController) (blocked : Finset ℤ)
    (engineResults : SearchResults) (uid page : ℤ) (apf : Bool)
    (h0 : uid ≠ 0) (how : ac.is_owner uid = false)
    (had : ac.is_admin uid = false) :
    (ac.get_allowed_groups_for_user uid ≠ ∅ →
      ∀ r m, parse_and_search ac blocked engineResults page none apf (some uid)
          = .page r m →
        ∀ h ∈ r.hits,
          optMem h.chatId (ac.get_allowed_groups_for_user uid) = true) ∧
    (ac.get_allowed_groups_for_user uid = ∅ →
      ∀ r m, parse_and_search ac blocked engineResults page none apf (some uid)
          = .page r m →
        r = (if apf then filter_search_results blocked engineResults
             else engineResults)) := by
  constructor
  · intro hne r m hres h hmem
    obtain ⟨hr, -⟩ := parse_and_search_page_inv ac blocked engineResults page
      none apf (some uid) r m hres
    subst hr
    unfold post_filter at hmem
    rw [permission_filter_nonempty_hits ac uid _ h0 how had hne] at hmem
    exact (List.mem_filter.mp hmem).2
  · intro he r m hres
    obtain ⟨hr, -⟩ := parse_and_search_page_inv ac blocked engineResults page
      none apf (some uid) r m hres
    subst hr
    unfold post_filter
    rw [permission_filter_empty_perms ac uid _ he]

/-- Witness for C1_permission_containment: user 2 with entry `{42}` searches
and the returned hit from chat 42 is inside the entry. -/
theorem C1_permission_containment_witness :
    optMem hitChat42.chatId (acPerm42.get_allowed_groups_for_user 2)
      = true :=
  (C1_permission_containment acPerm42 ∅ resChat42 2 1 true (by decide)
      (by decide) (by decide)).1
    (by decide)
    { hits := [hitChat42], totalHits := 1, totalPages := 1, page := 1,
      hitsPerPage := some 10 }
    none (by decide) hitChat42 (by decide)

/-- C8 counterexample: a valid request for page 5 whose client-side
permission filter shrinks the result to one hit yields a page whose
recomputed totalPages is 1 while the returned page stays 5 — the source
leaves `results["page"]` as the engine echoed it, so the returned page
exceeds `min(totalPages, MAX_PAGE) = 1`. -/
theorem C8_counterexample :
    parse_and_search acPerm50 ∅ resPage5 5 none true (some 2) =
      .page { hits := [hitChat50], totalHits := 1, totalPages := 1, page := 5,
              hitsPerPage := some 10 } none ∧
    ¬((5 : ℤ) ≤ min (1 : ℤ) MAX_PAGE) := by
  constructor
  · decide
  · decide

/-- C8 (amended): the pipeline rejects `page < 1` and `page > MAX_PAGE`
with the user-visible error messages; the page of a returned results page is
the engine-echoed `results["page"]` (so it is at most MAX_PAGE whenever the
engine echoes the validated request page, but it is not clamped to the
post-filter totalPages and may exceed it); and the navigation markup never
contains a Next button when the page is at or past MAX_PAGE. -/
theorem C8_page_validation_and_navigation (ac : AccessController)
    (blocked : Finset ℤ) (engineResults : SearchResults) (page : ℤ)
    (chatId userId : Option ℤ) (apf : Bool) :
    (page < 1 →
      parse_and_search ac blocked engineResults page chatId apf userId =
        .failure "Invalid page number. Page must be greater than 0.") ∧
    (page > MAX_PAGE →
      parse_and_search ac blocked engineResults page chatId apf userId =
        .failure "Page number too high. Maximum allowed page is 100.") ∧
    (∀ r m, parse_and_search ac blocked engineResults page chatId apf userId
        = .page r m → r.page = engineResults.page) ∧
    (engineResults.page = page →
      ∀ r m, parse_and_search ac blocked engineResults page chatId apf userId
        = .page r m → r.page ≤ MAX_PAGE) ∧
    (∀ r rows, parse_and_search ac blocked engineResults page chatId apf
        userId = .page r (some rows) → MAX_PAGE ≤ r.page →
      ∀ row ∈ rows, ∀ b ∈ row, b.text ≠ "Next Page") := by
  refine ⟨?_, ?_, ?_, ?_, ?_⟩
  · intro h1
    unfold parse_and_search
    rw [if_pos h1]
  · intro h2
    have h1 : ¬page < 1 := by unfold MAX_PAGE at h2; omega
    unfold parse_and_search
    rw [if_neg h1, if_pos h2]
  · intro r m hres
    obtain ⟨hr, -⟩ := parse_and_search_page_inv ac blocked engineResults page
      chatId apf userId r m hres
    rw [hr, post_filter_page]
  · intro hecho r m hres
    obtain ⟨hr, -⟩ := parse_and_search_page_inv ac blocked engineResults page
      chatId apf userId r m hres
    have hpage : r.page = page := by rw [hr, post_filter_page, hecho]
    have h2 : ¬page > MAX_PAGE := by
      intro h2
      have h1 : ¬page < 1 := by unfold MAX_PAGE at h2; omega
      unfold parse_and_search at hres
      rw [if_neg h1, if_pos h2] at hres
      exact absurd hres (by simp)
    omega
  · intro r rows hres hmax
    obtain ⟨-, hm⟩ := parse_and_search_page_inv ac blocked engineResults page
      chatId apf userId r (some rows) hres
    exact generate_navigation_no_next_at_max r.page r.totalPages hmax rows
      hm.symm

/-- Witness for C8_page_validation_and_navigation: page 0 is rejected with
the user-visible error. -/
theorem C8_page_validation_and_navigation_witness :
    parse_and_search acPerm50 ∅ resPage5 0 none true (some 2) =
      .failure "Invalid page number. Page must be greater than 0." :=
  (C8_page_validation_and_navigation acPerm50 ∅ resPage5 0 none (some 2)
    true).1 (by decide)

end SearchGram
